import Mathlib

/-!
# Stock-Analyzer: a shallow embedding of the sentiment-analysis core

This file embeds the core of the Stock-Analyzer repository
(`src/app/sentiment.py`, `src/app/scraper.py`, `src/app/data.py`) in Lean 4
and proves properties of the embedded functions.

Modelling conventions:
* Python floats are modelled by `ℚ` (the code only compares and averages
  sentiment values; no float-specific behaviour is relied upon).
* External capabilities (the TextBlob lexicon model, the HTTP client, the
  HTML parser, the yfinance news provider) are parameters of the embedded
  functions, per the spec's external-interface boundary (§6).
* Python exceptions raised by an external call are modelled by `Except`;
  a `try/except` block is modelled by matching on the `Except` value.
* Streamlit UI effects (status text, spinner, warnings) are not modelled,
  except that the progress-bar updates of the orchestrator loop and the
  warning of the scraper are reified as data, since claims mention them.
-/

/-! ## sentiment.py -/

/-- Embeds `analyze_sentiment` (src/app/sentiment.py, lines 10-35).
`lex` is the external TextBlob lexicon model, returning
`(polarity, subjectivity)` for a text.  The result tuple is
`(polarity, subjectivity, sentiment_label, emoji)`. -/
def analyze_sentiment (lex : String → ℚ × ℚ) (text : String) :
    ℚ × ℚ × String × String :=
  let polarity := (lex text).1
  let subjectivity := (lex text).2
  if polarity > 1/10 then
    (polarity, subjectivity, "Positive", "😊")
  else if polarity < -(1/10) then
    (polarity, subjectivity, "Negative", "😠")
  else
    (polarity, subjectivity, "Neutral", "😐")

/-- The combined-sentiment dictionary returned by
`calculate_combined_sentiment`. -/
structure CombinedSentiment where
  polarity : ℚ
  subjectivity : ℚ
  sentiment : String
  emoji : String
deriving Repr, DecidableEq

/-- Embeds `calculate_combined_sentiment` (src/app/sentiment.py, lines 38-60):
join the texts with a single space; if the join is empty return `None`
(Python falsiness of the empty string), else score the joined text. -/
def calculate_combined_sentiment (lex : String → ℚ × ℚ)
    (article_texts : List String) : Option CombinedSentiment :=
  let combined_text := String.intercalate " " article_texts
  if combined_text = "" then
    none
  else
    let r := analyze_sentiment lex combined_text
    some ⟨r.1, r.2.1, r.2.2.1, r.2.2.2⟩

/-! ## scraper.py -/

/-- An HTML document fragment, as produced by the external parser
(BeautifulSoup): an element with a tag name and children, or a text node. -/
inductive Html where
  | tag (name : String) (children : List Html)
  | txt (s : String)

/-- Embeds the removal loop `for script_or_style in soup([...]):
script_or_style.extract()` — every element whose tag is in `bad` is removed
from the tree, at any depth. -/
def dropTags (bad : List String) : List Html → List Html
  | [] => []
  | Html.txt s :: rest => Html.txt s :: dropTags bad rest
  | Html.tag n cs :: rest =>
    if n ∈ bad then dropTags bad rest
    else Html.tag n (dropTags bad cs) :: dropTags bad rest

/-- Embeds `soup.find_all(name)`: all elements with the given tag name, in
document (pre-order) order, descendants of matches included. -/
def findAll (name : String) : List Html → List Html
  | [] => []
  | Html.txt _ :: rest => findAll name rest
  | Html.tag n cs :: rest =>
    (if n = name then [Html.tag n cs] else []) ++ findAll name cs ++ findAll name rest

/-- Embeds `p.get_text()`: concatenation of all descendant text nodes. -/
def getText : Html → String
  | Html.txt s => s
  | Html.tag _ cs => getTextList cs
where getTextList : List Html → String
  | [] => ""
  | h :: rest => getText h ++ getTextList rest

/-- Embeds Python `str.strip()` (ASCII whitespace). -/
def stripWs (s : String) : String :=
  String.mk (((s.toList.dropWhile Char.isWhitespace).reverse.dropWhile
    Char.isWhitespace).reverse)

/-- Embeds `re.sub(r'\s+', ' ', ·)` on a character list: every maximal run
of whitespace characters becomes a single space. -/
def collapseChars : List Char → List Char
  | [] => []
  | [c] => if c.isWhitespace then [' '] else [c]
  | c₁ :: c₂ :: rest =>
    if c₁.isWhitespace ∧ c₂.isWhitespace then collapseChars (c₂ :: rest)
    else (if c₁.isWhitespace then ' ' else c₁) :: collapseChars (c₂ :: rest)

/-- Embeds `re.sub(r'\s+', ' ', s)`. -/
def collapseWsStr (s : String) : String :=
  String.mk (collapseChars s.toList)

/-- Replacement scan for `pyReplace`: emit `repl` at each occurrence of
`pat`, scanning left to right; the `Nat` counts matched characters still to
be skipped.  Non-overlapping left-to-right replacement, as in Python. -/
def replaceGo (pat repl : List Char) : Nat → List Char → List Char
  | _, [] => []
  | Nat.succ k, _ :: cs => replaceGo pat repl k cs
  | 0, c :: cs =>
    if pat.isPrefixOf (c :: cs) ∧ pat ≠ [] then
      repl ++ replaceGo pat repl (pat.length - 1) cs
    else c :: replaceGo pat repl 0 cs

/-- Embeds Python `s.replace(pat, repl)` (the code only calls it with the
fixed, non-empty boilerplate fragment as `pat`). -/
def pyReplace (s pat repl : String) : String :=
  String.mk (replaceGo pat.toList repl.toList 0 s.toList)

/-- The HTTP response object of the `requests` library, restricted to the
two members the code reads. -/
structure HttpResponse where
  status_code : Nat
  text : String
deriving Repr, DecidableEq

/-- The boilerplate fragment removed by the scraper
(src/app/scraper.py, lines 53-54). -/
def boilerplateFragment : String :=
  "Oops, something went wrong Unlock stock picks and a broker-level newsfeed that powers Wall"

/-- The body of the `try` block of `extract_article_text`
(src/app/scraper.py, lines 23-56).  `httpGet` is the external
`requests.get` (an `Except.error` models a raised exception, e.g. a
timeout); `parseHtml` is the external BeautifulSoup parser.  An
`Except.error` result models an exception propagating out of the block. -/
def extractTry (httpGet : String → Except String HttpResponse)
    (parseHtml : String → Except String (List Html)) (url : String) :
    Except String String :=
  match httpGet url with
  | Except.error e => Except.error e
  | Except.ok response =>
    if response.status_code ≠ 200 then Except.ok ""
    else
      match parseHtml response.text with
      | Except.error e => Except.error e
      | Except.ok soup =>
        let soup := dropTags ["script", "style", "header", "footer", "nav"] soup
        let paragraphs := findAll "p" soup
        let article_text :=
          String.intercalate " " (paragraphs.map (fun p => stripWs (getText p)))
        let article_text := stripWs (collapseWsStr article_text)
        let article_text := pyReplace article_text boilerplateFragment ""
        Except.ok article_text

/-- Embeds `extract_article_text` (src/app/scraper.py, lines 13-60).
The result is `(extracted text, optional warning message)`: the `except`
clause turns any exception into the empty string plus a `st.warning`. -/
def extract_article_text (httpGet : String → Except String HttpResponse)
    (parseHtml : String → Except String (List Html)) (url : String) :
    String × Option String :=
  match extractTry httpGet parseHtml url with
  | Except.ok s => (s, none)
  | Except.error e =>
    ("", some ("Could not extract text from " ++ url ++ ". Error: " ++ e))

/-! ## data.py -/

/-- A news item as returned by the yfinance provider: a Python dict with
possibly-missing keys, restricted to the keys the code reads.
`none` models an absent key (`dict.get` then yields the default). -/
structure Article where
  title : Option String
  link : Option String
  summary : Option String
  publisher : Option String
  providerPublishTime : Option String
deriving Repr, DecidableEq

/-- Embeds `get_stock_news` (src/app/data.py, lines 15-38).
`newsSource` is the external `yf.Search(...).news` call; an `Except.error`
models a raised exception, caught by the `except` clause and turned into
`[]` (after an `st.error`). -/
def get_stock_news (newsSource : String → Nat → Except String (List Article))
    (ticker_symbol : String) (num_articles : Nat) : List Article :=
  match newsSource ticker_symbol num_articles with
  | Except.error _ => []
  | Except.ok news => if news ≠ [] then news.take num_articles else []

/-- The fixed sentinel stored in place of the article text when extraction
fails (src/app/data.py, line 80). -/
def failedExtractionText : String := "Could not extract full article text"

/-- The per-article result dictionary built by `process_article`
(src/app/data.py, lines 83-98). -/
structure ArticleData where
  title : String
  publisher : String
  link : String
  headline_polarity : ℚ
  headline_subjectivity : ℚ
  headline_sentiment : String
  headline_emoji : String
  full_text_polarity : ℚ
  full_text_subjectivity : ℚ
  full_text_sentiment : String
  full_text_emoji : String
  article_text : String
  published : String
  raw_text : String
deriving Repr, DecidableEq

/-- Embeds `process_article` (src/app/data.py, lines 42-98).
`extractText` is the article-text extractor applied to a URL
(`extract_article_text` composed with the HTTP client).  The UI-only
parameters `index`, `total_articles`, `status_text` and the politeness
`time.sleep(0.5)` have no data effect and are not modelled. -/
def process_article (lex : String → ℚ × ℚ) (extractText : String → String)
    (article : Article) : ArticleData :=
  let article_url := article.link.getD ""
  let title := article.title.getD ""
  let summary := article.summary.getD ""
  let headline_text := title ++ " " ++ summary
  let h := analyze_sentiment lex headline_text
  let article_full_text := if article_url ≠ "" then extractText article_url else ""
  let f :=
    if article_full_text ≠ "" then
      let r := analyze_sentiment lex article_full_text
      (r.1, r.2.1, r.2.2.1, r.2.2.2, article_full_text)
    else
      (h.1, h.2.1, h.2.2.1, h.2.2.2, failedExtractionText)
  { title := title
    publisher := article.publisher.getD "Unknown"
    link := article_url
    headline_polarity := h.1
    headline_subjectivity := h.2.1
    headline_sentiment := h.2.2.1
    headline_emoji := h.2.2.2
    full_text_polarity := f.1
    full_text_subjectivity := f.2.1
    full_text_sentiment := f.2.2.1
    full_text_emoji := f.2.2.2.1
    article_text :=
      if (f.2.2.2.2 : String).length > 500 then (f.2.2.2.2 : String).take 500 ++ "..."
      else f.2.2.2.2
    published := article.providerPublishTime.getD "Unknown"
    raw_text := f.2.2.2.2 }

/-- The `for i, article in enumerate(news_articles)` loop of
`analyze_stock_news_sentiment` (src/app/data.py, lines 126-135), rendered
as a recursion: it returns, in loop order, the accumulated `results` list,
the `all_article_texts` list (a record's `raw_text` is appended when it is
non-empty, i.e. truthy), and the fractions sent to the progress bar
(`(i + 1) / total`). -/
def analyzeLoop (lex : String → ℚ × ℚ) (extractText : String → String)
    (total : Nat) : Nat → List Article → List ArticleData × List String × List ℚ
  | _, [] => ([], [], [])
  | i, article :: rest =>
    let article_data := process_article lex extractText article
    let acc := analyzeLoop lex extractText total (i + 1) rest
    (article_data :: acc.1,
     (if article_data.raw_text ≠ "" then [article_data.raw_text] else []) ++ acc.2.1,
     ((i + 1 : ℚ) / (total : ℚ)) :: acc.2.2)

/-- Embeds `analyze_stock_news_sentiment` (src/app/data.py, lines 102-167).
Returns the code's 5-tuple
`(avg_polarity, avg_subjectivity, overall_sentiment, news_df, combined_sentiment)`;
the DataFrame is modelled as the list of row dictionaries (the `raw_text`
column deletion only affects display and keeps row order). -/
def analyze_stock_news_sentiment (lex : String → ℚ × ℚ)
    (extractText : String → String)
    (newsSource : String → Nat → Except String (List Article))
    (ticker_symbol : String) (num_articles : Nat) :
    ℚ × ℚ × String × List ArticleData × Option CombinedSentiment :=
  let news_articles := get_stock_news newsSource ticker_symbol num_articles
  if news_articles = [] then
    (0, 0, "Neutral", [], none)
  else
    let acc := analyzeLoop lex extractText news_articles.length 0 news_articles
    let results := acc.1
    let all_article_texts := acc.2.1
    let news_df := results
    let avgs :=
      if news_df ≠ [] then
        let avg_polarity :=
          (news_df.map ArticleData.full_text_polarity).sum / (news_df.length : ℚ)
        let avg_subjectivity :=
          (news_df.map ArticleData.full_text_subjectivity).sum / (news_df.length : ℚ)
        let overall_sentiment :=
          if avg_polarity > 1/10 then "Positive"
          else if avg_polarity < -(1/10) then "Negative"
          else "Neutral"
        (avg_polarity, avg_subjectivity, overall_sentiment)
      else (0, 0, "Neutral")
    let combined_sentiment := calculate_combined_sentiment lex all_article_texts
    (avgs.1, avgs.2.1, avgs.2.2, news_df, combined_sentiment)

/-- The progress-bar updates emitted by one run of
`analyze_stock_news_sentiment`: none when the headline list is empty
(the function returns before the loop), otherwise the loop's updates. -/
def analyzeProgressUpdates (lex : String → ℚ × ℚ)
    (extractText : String → String)
    (newsSource : String → Nat → Except String (List Article))
    (ticker_symbol : String) (num_articles : Nat) : List ℚ :=
  let news_articles := get_stock_news newsSource ticker_symbol num_articles
  if news_articles = [] then []
  else (analyzeLoop lex extractText news_articles.length 0 news_articles).2.2

/-- The Streamlit session state, restricted to the keys
`perform_stock_news_analysis` reads and writes.  `num_articles` is
optional because it is read with `st.session_state.get('num_articles', 3)`. -/
structure SessionState where
  ticker : String
  analysis_performed : Bool
  avg_polarity : ℚ
  avg_subjectivity : ℚ
  overall_sentiment : String
  news_df : List ArticleData
  combined_sentiment : Option CombinedSentiment
  num_articles : Option Nat
deriving Repr, DecidableEq

/-- Embeds `perform_stock_news_analysis` (src/app/data.py, lines 170-218).
Returns `(return value, updated session state, number of news-source
invocations during the call)`: the cached branches perform no fetch, the
recompute branch runs `analyze_stock_news_sentiment`, which queries the
news source exactly once. -/
def perform_stock_news_analysis (lex : String → ℚ × ℚ)
    (extractText : String → String)
    (newsSource : String → Nat → Except String (List Article))
    (s : SessionState) (ticker : String) :
    Option (ℚ × ℚ × String × List ArticleData × Option CombinedSentiment) ×
      SessionState × Nat :=
  if ticker = "" then
    (none, s, 0)
  else if s.ticker = ticker ∧ s.analysis_performed then
    (some (s.avg_polarity, s.avg_subjectivity, s.overall_sentiment,
           s.news_df, s.combined_sentiment), s, 0)
  else
    let num_articles := s.num_articles.getD 3
    let r := analyze_stock_news_sentiment lex extractText newsSource ticker num_articles
    let s' : SessionState :=
      { ticker := ticker
        avg_polarity := r.1
        avg_subjectivity := r.2.1
        overall_sentiment := r.2.2.1
        news_df := r.2.2.2.1
        combined_sentiment := r.2.2.2.2
        analysis_performed := true
        num_articles := s.num_articles }
    if r.2.2.2.1 = [] then (none, s', 1)
    else (some r, s', 1)

/-! ## Spec-side definition for the refinement comparison of claim C4 -/

/-- Modelled from the spec (§4.2, quoted by claim C4): the successful-response
extraction pipeline as the claim words it, with `aside` in the drop list;
otherwise identical to the code's pipeline. -/
def extractClaimedPipeline (soup : List Html) : String :=
  let soup := dropTags ["script", "style", "header", "footer", "nav", "aside"] soup
  let paragraphs := findAll "p" soup
  let article_text :=
    String.intercalate " " (paragraphs.map (fun q => stripWs (getText q)))
  let article_text := stripWs (collapseWsStr article_text)
  pyReplace article_text boilerplateFragment ""

/-! ## Concrete fixtures used by witnesses and counterexamples -/

/-- A lexicon stub scoring every text `(0, 0)`. -/
def lexZero : String → ℚ × ℚ := fun _ => (0, 0)

/-- An extractor stub that always fails (returns the empty string). -/
def extractEmpty : String → String := fun _ => ""

/-- An extractor stub returning a fixed non-empty body text. -/
def extractFixed : String → String := fun _ => "Body text"

/-- A headline with a link. -/
def articleWithLink : Article :=
  { title := some "Stocks rally", link := some "http://example.com/a",
    summary := some "Markets rise", publisher := some "Wire",
    providerPublishTime := some "now" }

/-- A headline without a link. -/
def articleNoLink : Article :=
  { title := some "Quiet day", link := none, summary := none,
    publisher := none, providerPublishTime := none }

/-- A news-source stub returning two headlines. -/
def newsTwo : String → Nat → Except String (List Article) :=
  fun _ _ => Except.ok [articleWithLink, articleNoLink]

/-- A news-source stub returning one linkless headline. -/
def newsOne : String → Nat → Except String (List Article) :=
  fun _ _ => Except.ok [articleNoLink]

/-- A news-source stub returning no headlines. -/
def newsNone : String → Nat → Except String (List Article) :=
  fun _ _ => Except.ok []

/-- An HTML document whose `aside` element contains a paragraph. -/
def asideDoc : List Html :=
  [Html.tag "aside" [Html.tag "p" [Html.txt "Subscribe to Premium"]],
   Html.tag "p" [Html.txt "Shares rose today."]]

/-- An HTTP client stub returning a 200 response. -/
def httpOkPage : String → Except String HttpResponse :=
  fun _ => Except.ok ⟨200, "page"⟩

/-- A parser stub returning `asideDoc` for every body. -/
def parseAside : String → Except String (List Html) :=
  fun _ => Except.ok asideDoc

/-- A fresh session state: no ticker, no analysis performed. -/
def freshSession : SessionState :=
  { ticker := "", analysis_performed := false, avg_polarity := 0,
    avg_subjectivity := 0, overall_sentiment := "", news_df := [],
    combined_sentiment := none, num_articles := none }

/-! ## Helper lemmas -/

/-- `String.intercalate.go` never shrinks its accumulator. -/
theorem length_le_intercalate_go (s : String) (ts : List String) (acc : String) :
    acc.length ≤ (String.intercalate.go acc s ts).length := by
  induction ts generalizing acc with
  | nil => simp [String.intercalate.go]
  | cons a as ih =>
    calc acc.length ≤ (acc ++ s ++ a).length := by
          simp [String.length_append]; omega
      _ ≤ _ := ih (acc ++ s ++ a)

/-- Joining a list whose head is non-empty yields a non-empty string. -/
theorem intercalate_cons_ne_empty (t : String) (ts : List String) (ht : t ≠ "") :
    String.intercalate " " (t :: ts) ≠ "" := by
  have h1 : t.length ≤ (String.intercalate " " (t :: ts)).length := by
    simpa [String.intercalate] using length_le_intercalate_go " " ts t
  intro h
  rw [h] at h1
  have h0 : t.length = 0 := by simpa using h1
  exact ht (by cases t with | mk d => simp at h0; simp [h0])

/-- Every record built by `process_article` carries a non-empty `raw_text`:
either the non-empty extracted text or the non-empty failure sentinel. -/
theorem process_article_raw_text_ne (lex : String → ℚ × ℚ)
    (xt : String → String) (a : Article) :
    (process_article lex xt a).raw_text ≠ "" := by
  unfold process_article
  dsimp only
  split
  · split
    · next h2 => exact h2
    · simp [failedExtractionText]
  · split
    · next h2 => exact h2
    · simp [failedExtractionText]

/-- The loop's first component is the headlines processed in order. -/
theorem analyzeLoop_results (lex : String → ℚ × ℚ) (xt : String → String)
    (total : Nat) (i : Nat) (l : List Article) :
    (analyzeLoop lex xt total i l).1 = l.map (process_article lex xt) := by
  induction l generalizing i with
  | nil => simp [analyzeLoop]
  | cons a rest ih => simp [analyzeLoop, ih]

/-- The loop's `all_article_texts` component is the `raw_text` of every
record in order (no record's `raw_text` is empty, so none is skipped). -/
theorem analyzeLoop_texts (lex : String → ℚ × ℚ) (xt : String → String)
    (total : Nat) (i : Nat) (l : List Article) :
    (analyzeLoop lex xt total i l).2.1 =
      (l.map (process_article lex xt)).map ArticleData.raw_text := by
  induction l generalizing i with
  | nil => simp [analyzeLoop]
  | cons a rest ih =>
    simp [analyzeLoop, ih, process_article_raw_text_ne lex xt a]

/-- The loop's progress-bar component: fractions `(i + j + 1) / total`. -/
theorem analyzeLoop_progress (lex : String → ℚ × ℚ) (xt : String → String)
    (total : Nat) (i : Nat) (l : List Article) :
    (analyzeLoop lex xt total i l).2.2 =
      (List.range l.length).map (fun (j : ℕ) => (((i + j + 1 : ℕ) : ℚ)) / (total : ℚ)) := by
  induction l generalizing i with
  | nil => simp [analyzeLoop]
  | cons a rest ih =>
    simp only [analyzeLoop, List.length_cons]
    rw [ih (i + 1), List.range_succ_eq_map, List.map_cons, List.map_map]
    refine List.cons_eq_cons.mpr ⟨by push_cast; ring_nf, ?_⟩
    apply List.map_congr_left
    intro j _
    simp only [Function.comp_apply]
    push_cast
    ring

/-! ## Claim theorems -/

/-- C3: `extract_article_text` never raises: it is a total function into
`String × Option String`; a fetch exception is converted to the empty
string plus a recoverable warning, a non-success HTTP status (e.g. 500)
yields the empty string, and a parse exception is likewise converted to
the empty string plus a warning. -/
theorem C3_extract_never_raises (httpGet : String → Except String HttpResponse)
    (parseHtml : String → Except String (List Html)) (url : String) :
    (∀ e, httpGet url = Except.error e →
      extract_article_text httpGet parseHtml url =
        ("", some ("Could not extract text from " ++ url ++ ". Error: " ++ e))) ∧
    (∀ resp, httpGet url = Except.ok resp → resp.status_code ≠ 200 →
      extract_article_text httpGet parseHtml url = ("", none)) ∧
    (∀ resp e, httpGet url = Except.ok resp → resp.status_code = 200 →
      parseHtml resp.text = Except.error e →
      extract_article_text httpGet parseHtml url =
        ("", some ("Could not extract text from " ++ url ++ ". Error: " ++ e))) := by
  refine ⟨?_, ?_, ?_⟩
  · intro e he
    simp [extract_article_text, extractTry, he]
  · intro resp hok hst
    simp [extract_article_text, extractTry, hok, hst]
  · intro resp e hok hst hparse
    simp [extract_article_text, extractTry, hok, hst, hparse]

/-- C3 witness: a fetch that raises (timeout) yields `("", warning)`; an
HTTP 500 response yields `("", none)` with no exception. -/
theorem C3_extract_never_raises_witness :
    extract_article_text (fun _ => Except.error "timeout")
        (fun _ => Except.ok []) "u" =
      ("", some "Could not extract text from u. Error: timeout") ∧
    extract_article_text (fun _ => Except.ok ⟨500, "body"⟩)
        (fun _ => Except.ok []) "u" = ("", none) :=
  ⟨(C3_extract_never_raises (fun _ => Except.error "timeout")
      (fun _ => Except.ok []) "u").1 "timeout" rfl,
   (C3_extract_never_raises (fun _ => Except.ok ⟨500, "body"⟩)
      (fun _ => Except.ok []) "u").2.1 ⟨500, "body"⟩ rfl (by decide)⟩

/-- C5: the sentiment label is a deterministic function of the lexicon
polarity with strict thresholds: `> 0.1` gives Positive, `< -0.1` gives
Negative, everything in `[-0.1, 0.1]` (the endpoints included) gives
Neutral; when the lexicon scores the empty text `(0, 0)` (as TextBlob
does), the empty text yields polarity 0, subjectivity 0 and label
Neutral. -/
theorem C5_label_thresholds (lex : String → ℚ × ℚ) (text : String) :
    (lex "" = (0, 0) → analyze_sentiment lex "" = (0, 0, "Neutral", "😐")) ∧
    ((lex text).1 > 1/10 → (analyze_sentiment lex text).2.2.1 = "Positive") ∧
    ((lex text).1 < -(1/10) → (analyze_sentiment lex text).2.2.1 = "Negative") ∧
    (-(1/10) ≤ (lex text).1 → (lex text).1 ≤ 1/10 →
      (analyze_sentiment lex text).2.2.1 = "Neutral") := by
  refine ⟨?_, ?_, ?_, ?_⟩
  · intro h0
    unfold analyze_sentiment
    dsimp only
    rw [h0]
    norm_num
  · intro hp
    unfold analyze_sentiment
    dsimp only
    split_ifs
    rfl
  · intro hn
    unfold analyze_sentiment
    dsimp only
    split_ifs with h1
    · exact absurd h1 (by linarith)
    · rfl
  · intro hge hle
    unfold analyze_sentiment
    dsimp only
    split_ifs with h1 h2
    · exact absurd h1 (by linarith)
    · exact absurd h2 (by linarith)
    · rfl

/-- C5 witness: the empty text under a `(0,0)` lexicon, polarities exactly
`0.1` and `-0.1` (both Neutral), and one value on each strict side. -/
theorem C5_label_thresholds_witness :
    analyze_sentiment (fun _ => (0, 0)) "" = (0, 0, "Neutral", "😐") ∧
    (analyze_sentiment (fun _ => (1/10, 0)) "x").2.2.1 = "Neutral" ∧
    (analyze_sentiment (fun _ => (-(1/10), 0)) "x").2.2.1 = "Neutral" ∧
    (analyze_sentiment (fun _ => (1/5, 0)) "x").2.2.1 = "Positive" ∧
    (analyze_sentiment (fun _ => (-(1/5), 0)) "x").2.2.1 = "Negative" :=
  ⟨(C5_label_thresholds (fun _ => (0, 0)) "").1 rfl,
   (C5_label_thresholds (fun _ => (1/10, 0)) "x").2.2.2 (by norm_num) (by norm_num),
   (C5_label_thresholds (fun _ => (-(1/10), 0)) "x").2.2.2 (by norm_num) (by norm_num),
   (C5_label_thresholds (fun _ => (1/5, 0)) "x").2.1 (by norm_num),
   (C5_label_thresholds (fun _ => (-(1/5), 0)) "x").2.2.1 (by norm_num)⟩

/-- C6: when the headline's link is absent or extraction yields the empty
string, the record's full-text sentiment (polarity, subjectivity, label and
emoji) equals its headline sentiment, and its extracted text — both the
stored `raw_text` and the displayed `article_text` — is the fixed sentinel
marking failure. -/
theorem C6_fallback (lex : String → ℚ × ℚ) (xt : String → String) (a : Article)
    (h : a.link.getD "" = "" ∨ xt (a.link.getD "") = "") :
    (process_article lex xt a).full_text_polarity =
        (process_article lex xt a).headline_polarity ∧
    (process_article lex xt a).full_text_subjectivity =
        (process_article lex xt a).headline_subjectivity ∧
    (process_article lex xt a).full_text_sentiment =
        (process_article lex xt a).headline_sentiment ∧
    (process_article lex xt a).full_text_emoji =
        (process_article lex xt a).headline_emoji ∧
    (process_article lex xt a).raw_text = failedExtractionText ∧
    (process_article lex xt a).article_text = failedExtractionText := by
  have hfull : (if a.link.getD "" ≠ "" then xt (a.link.getD "") else "") = "" := by
    rcases h with h | h
    · simp [h]
    · split_ifs <;> simp [h]
  unfold process_article
  dsimp only
  rw [hfull]
  simp [failedExtractionText]
  intro h500
  exact absurd h500 (by decide)

/-- C6 witness: a headline without a link under an always-failing
extractor. -/
theorem C6_fallback_witness :
    (articleNoLink.link.getD "" = "" ∨
      extractEmpty (articleNoLink.link.getD "") = "") ∧
    (process_article lexZero extractEmpty articleNoLink).full_text_polarity =
        (process_article lexZero extractEmpty articleNoLink).headline_polarity ∧
    (process_article lexZero extractEmpty articleNoLink).raw_text =
        failedExtractionText :=
  ⟨Or.inl (by decide),
   (C6_fallback lexZero extractEmpty articleNoLink (Or.inl (by decide))).1,
   (C6_fallback lexZero extractEmpty articleNoLink (Or.inl (by decide))).2.2.2.2.1⟩

/-- C7: when the news source yields no headlines,
`analyze_stock_news_sentiment` returns the empty/neutral sentinel
`(0, 0, "Neutral", [], none)` immediately, and no article is processed:
no progress update is emitted. -/
theorem C7_empty_news (lex : String → ℚ × ℚ) (xt : String → String)
    (ns : String → Nat → Except String (List Article))
    (t : String) (n : Nat) (h : get_stock_news ns t n = []) :
    analyze_stock_news_sentiment lex xt ns t n = (0, 0, "Neutral", [], none) ∧
    analyzeProgressUpdates lex xt ns t n = [] := by
  constructor
  · simp [analyze_stock_news_sentiment, h]
  · simp [analyzeProgressUpdates, h]

/-- C7 witness: a news-source stub returning the empty list. -/
theorem C7_empty_news_witness :
    get_stock_news newsNone "AAPL" 5 = [] ∧
    analyze_stock_news_sentiment lexZero extractEmpty newsNone "AAPL" 5 =
      (0, 0, "Neutral", [], none) ∧
    analyzeProgressUpdates lexZero extractEmpty newsNone "AAPL" 5 = [] :=
  ⟨by decide,
   (C7_empty_news lexZero extractEmpty newsNone "AAPL" 5 (by decide)).1,
   (C7_empty_news lexZero extractEmpty newsNone "AAPL" 5 (by decide)).2⟩

/-- C8: for a non-empty headline list, the orchestrator produces exactly one
record per headline, in headline order (the record list is the map of
`process_article` over the headlines), and emits one progress update
`(i + 1) / total` per processed item, in processing order; the emitted
fractions are strictly increasing. -/
theorem C8_order_progress (lex : String → ℚ × ℚ) (xt : String → String)
    (ns : String → Nat → Except String (List Article))
    (t : String) (n : Nat) (h : get_stock_news ns t n ≠ []) :
    (analyze_stock_news_sentiment lex xt ns t n).2.2.2.1 =
      (get_stock_news ns t n).map (process_article lex xt) ∧
    (analyze_stock_news_sentiment lex xt ns t n).2.2.2.1.length =
      (get_stock_news ns t n).length ∧
    analyzeProgressUpdates lex xt ns t n =
      (List.range (get_stock_news ns t n).length).map
        (fun (i : ℕ) => (((i + 1 : ℕ) : ℚ)) / ((get_stock_news ns t n).length : ℚ)) ∧
    List.Pairwise (· < ·) (analyzeProgressUpdates lex xt ns t n) := by
  have hres : (analyze_stock_news_sentiment lex xt ns t n).2.2.2.1 =
      (get_stock_news ns t n).map (process_article lex xt) := by
    simp [analyze_stock_news_sentiment, h, analyzeLoop_results]
  have hprog : analyzeProgressUpdates lex xt ns t n =
      (List.range (get_stock_news ns t n).length).map
        (fun (i : ℕ) => (((i + 1 : ℕ) : ℚ)) / ((get_stock_news ns t n).length : ℚ)) := by
    simp only [analyzeProgressUpdates, if_neg h, analyzeLoop_progress]
    apply List.map_congr_left
    intro j _
    norm_num
  refine ⟨hres, by rw [hres]; simp, hprog, ?_⟩
  rw [hprog]
  have hlen : (0 : ℚ) < ((get_stock_news ns t n).length : ℚ) := by
    have := List.length_pos.mpr h
    exact_mod_cast this
  refine List.Pairwise.map _ ?_ (List.pairwise_lt_range _)
  intro a b hab
  have hcast : ((a + 1 : ℕ) : ℚ) < ((b + 1 : ℕ) : ℚ) := by
    exact_mod_cast Nat.succ_lt_succ hab
  exact (div_lt_div_iff_of_pos_right hlen).mpr hcast

/-- C8 witness: two headlines give two records and the strictly increasing
progress updates `[1/2, 1]`. -/
theorem C8_order_progress_witness :
    get_stock_news newsTwo "T" 5 ≠ [] ∧
    (analyze_stock_news_sentiment lexZero extractEmpty newsTwo "T" 5).2.2.2.1.length = 2 ∧
    analyzeProgressUpdates lexZero extractEmpty newsTwo "T" 5 = [1/2, 1] ∧
    List.Pairwise (· < ·) (analyzeProgressUpdates lexZero extractEmpty newsTwo "T" 5) :=
  ⟨by decide,
   by rw [(C8_order_progress lexZero extractEmpty newsTwo "T" 5 (by decide)).2.1]; decide,
   by
    rw [(C8_order_progress lexZero extractEmpty newsTwo "T" 5 (by decide)).2.2.1]
    have hl : (get_stock_news newsTwo "T" 5).length = 2 := by decide
    rw [hl]
    norm_num [List.range_succ],
   (C8_order_progress lexZero extractEmpty newsTwo "T" 5 (by decide)).2.2.2⟩

/-- C9: for a non-empty headline list, the returned averages are the
arithmetic means of the records' full-text polarity and subjectivity
(fallback records included, since every headline yields a record), and the
overall label is the per-article scorer's label at the average polarity —
the same strict thresholds. -/
theorem C9_averages (lex : String → ℚ × ℚ) (xt : String → String)
    (ns : String → Nat → Except String (List Article))
    (t : String) (n : Nat) (h : get_stock_news ns t n ≠ []) :
    (analyze_stock_news_sentiment lex xt ns t n).1 =
      (((get_stock_news ns t n).map (process_article lex xt)).map
        ArticleData.full_text_polarity).sum / ((get_stock_news ns t n).length : ℚ) ∧
    (analyze_stock_news_sentiment lex xt ns t n).2.1 =
      (((get_stock_news ns t n).map (process_article lex xt)).map
        ArticleData.full_text_subjectivity).sum / ((get_stock_news ns t n).length : ℚ) ∧
    (analyze_stock_news_sentiment lex xt ns t n).2.2.1 =
      (analyze_sentiment
        (fun _ => ((analyze_stock_news_sentiment lex xt ns t n).1, 0)) "").2.2.1 := by
  have hmap : (get_stock_news ns t n).map (process_article lex xt) ≠ [] := by
    simpa using h
  refine ⟨?_, ?_, ?_⟩
  · simp [analyze_stock_news_sentiment, h, analyzeLoop_results, hmap]
  · simp [analyze_stock_news_sentiment, h, analyzeLoop_results, hmap]
  · have h1 : (analyze_stock_news_sentiment lex xt ns t n).1 =
        (((get_stock_news ns t n).map (process_article lex xt)).map
          ArticleData.full_text_polarity).sum / ((get_stock_news ns t n).length : ℚ) := by
      simp [analyze_stock_news_sentiment, h, analyzeLoop_results, hmap]
    have h2 : (analyze_stock_news_sentiment lex xt ns t n).2.2.1 =
        (if (analyze_stock_news_sentiment lex xt ns t n).1 > 1/10 then "Positive"
         else if (analyze_stock_news_sentiment lex xt ns t n).1 < -(1/10) then "Negative"
         else "Neutral") := by
      rw [h1]
      simp [analyze_stock_news_sentiment, h, analyzeLoop_results, hmap]
    rw [h2]
    unfold analyze_sentiment
    dsimp only
    split_ifs <;> rfl

/-- C4 (amended): on a successful (HTTP 200) response whose body parses, the
extractor's result is exactly the pipeline: drop every `script`, `style`,
`header`, `footer` and `nav` element — `aside` is NOT dropped — then collect
every `p` element's stripped text, join with single spaces, collapse
whitespace runs to one space, trim, and strip the boilerplate fragment. -/
theorem C4_success_pipeline (httpGet : String → Except String HttpResponse)
    (parseHtml : String → Except String (List Html)) (url : String)
    (resp : HttpResponse) (soup : List Html)
    (hok : httpGet url = Except.ok resp) (hst : resp.status_code = 200)
    (hparse : parseHtml resp.text = Except.ok soup) :
    (extract_article_text httpGet parseHtml url).1 =
      pyReplace (stripWs (collapseWsStr (String.intercalate " "
        ((findAll "p" (dropTags ["script", "style", "header", "footer", "nav"] soup)).map
          (fun q => stripWs (getText q)))))) boilerplateFragment "" := by
  simp [extract_article_text, extractTry, hok, hst, hparse]

/-- C4 witness: the concrete 200-response fixture. -/
theorem C4_success_pipeline_witness :
    httpOkPage "u" = Except.ok ⟨200, "page"⟩ ∧
    (extract_article_text httpOkPage parseAside "u").1 =
      pyReplace (stripWs (collapseWsStr (String.intercalate " "
        ((findAll "p" (dropTags ["script", "style", "header", "footer", "nav"] asideDoc)).map
          (fun q => stripWs (getText q)))))) boilerplateFragment "" :=
  ⟨rfl, C4_success_pipeline httpOkPage parseAside "u" ⟨200, "page"⟩ asideDoc
    rfl rfl rfl⟩

/-- C4 counterexample: the code does not drop `aside` elements.  On a page
whose `aside` holds the paragraph "Subscribe to Premium", the code's result
keeps that text, while the claimed pipeline (drop list including `aside`)
removes it, so the claim fails at this input. -/
theorem C4_counterexample :
    (extract_article_text httpOkPage parseAside "u").1 =
      "Subscribe to Premium Shares rose today." ∧
    extractClaimedPipeline asideDoc = "Shares rose today." ∧
    (extract_article_text httpOkPage parseAside "u").1 ≠
      extractClaimedPipeline asideDoc := by
  have h1 : dropTags ["script", "style", "header", "footer", "nav"] asideDoc =
      asideDoc := by
    simp [asideDoc, dropTags]
  have h2 : findAll "p" asideDoc =
      [Html.tag "p" [Html.txt "Subscribe to Premium"],
       Html.tag "p" [Html.txt "Shares rose today."]] := by
    simp [asideDoc, findAll]
  have hcode : (extract_article_text httpOkPage parseAside "u").1 =
      "Subscribe to Premium Shares rose today." := by
    rw [C4_success_pipeline httpOkPage parseAside "u" ⟨200, "page"⟩ asideDoc
      rfl rfl rfl, h1, h2]
    decide
  have h3 : dropTags ["script", "style", "header", "footer", "nav", "aside"]
      asideDoc = [Html.tag "p" [Html.txt "Shares rose today."]] := by
    simp [asideDoc, dropTags]
  have h4 : findAll "p" [Html.tag "p" [Html.txt "Shares rose today."]] =
      [Html.tag "p" [Html.txt "Shares rose today."]] := by
    simp [findAll]
  have hclaim : extractClaimedPipeline asideDoc = "Shares rose today." := by
    unfold extractClaimedPipeline
    dsimp only
    rw [h3, h4]
    decide
  refine ⟨hcode, hclaim, ?_⟩
  rw [hcode, hclaim]
  decide

/-- C1 counterexample: with one headline whose extraction fails, the only
record's extraction failed (its stored text is the sentinel), yet the
corpus handed to `calculate_combined_sentiment` contains the sentinel
rather than excluding it, and the combined sentiment is present — refuting
both the corpus description and the absence condition of the claim. -/
theorem C1_counterexample :
    ((analyze_stock_news_sentiment lexZero extractEmpty newsOne "T" 5).2.2.2.1).map
      ArticleData.raw_text = [failedExtractionText] ∧
    (analyzeLoop lexZero extractEmpty (get_stock_news newsOne "T" 5).length 0
      (get_stock_news newsOne "T" 5)).2.1 = [failedExtractionText] ∧
    (analyze_stock_news_sentiment lexZero extractEmpty newsOne "T" 5).2.2.2.2 ≠
      none := by
  have hnews : get_stock_news newsOne "T" 5 = [articleNoLink] := by decide
  have hraw : (process_article lexZero extractEmpty articleNoLink).raw_text =
      failedExtractionText := by
    unfold process_article
    dsimp only
    rw [if_neg (by decide : ¬(articleNoLink.link.getD "" ≠ ""))]
    rw [if_neg (by decide : ¬(("" : String) ≠ ""))]
  refine ⟨?_, ?_, ?_⟩
  · simp [analyze_stock_news_sentiment, hnews, analyzeLoop_results, hraw]
  · rw [hnews]
    rw [analyzeLoop_texts]
    simp [hraw]
  · have hcorpus : (analyzeLoop lexZero extractEmpty
        (get_stock_news newsOne "T" 5).length 0 (get_stock_news newsOne "T" 5)).2.1 =
        [failedExtractionText] := by
      rw [hnews, analyzeLoop_texts]
      simp [hraw]
    have : (analyze_stock_news_sentiment lexZero extractEmpty newsOne "T" 5).2.2.2.2 =
        calculate_combined_sentiment lexZero [failedExtractionText] := by
      rw [← hcorpus]
      simp [analyze_stock_news_sentiment, hnews]
    rw [this]
    unfold calculate_combined_sentiment
    dsimp only
    rw [if_neg (by decide : ¬(String.intercalate " " [failedExtractionText] = ""))]
    simp

/-- C1 (amended): for a non-empty headline list the corpus passed to the
combined-sentiment computation is the `raw_text` of every record in
headline order — the failed-extraction sentinel included, not excluded —
and, since every record's `raw_text` is non-empty, the combined sentiment
is always present; it is absent exactly when the headline list is empty. -/
theorem C1_combined_corpus (lex : String → ℚ × ℚ) (xt : String → String)
    (ns : String → Nat → Except String (List Article)) (t : String) (n : Nat) :
    (get_stock_news ns t n ≠ [] →
      (analyzeLoop lex xt (get_stock_news ns t n).length 0
        (get_stock_news ns t n)).2.1 =
        ((get_stock_news ns t n).map (process_article lex xt)).map
          ArticleData.raw_text ∧
      (analyze_stock_news_sentiment lex xt ns t n).2.2.2.2 =
        calculate_combined_sentiment lex
          (((get_stock_news ns t n).map (process_article lex xt)).map
            ArticleData.raw_text) ∧
      (analyze_stock_news_sentiment lex xt ns t n).2.2.2.2 ≠ none) ∧
    (get_stock_news ns t n = [] →
      (analyze_stock_news_sentiment lex xt ns t n).2.2.2.2 = none) := by
  constructor
  · intro h
    have htexts := analyzeLoop_texts lex xt (get_stock_news ns t n).length 0
      (get_stock_news ns t n)
    have hcomb : (analyze_stock_news_sentiment lex xt ns t n).2.2.2.2 =
        calculate_combined_sentiment lex
          (((get_stock_news ns t n).map (process_article lex xt)).map
            ArticleData.raw_text) := by
      simp [analyze_stock_news_sentiment, h, htexts]
    refine ⟨htexts, hcomb, ?_⟩
    rw [hcomb]
    obtain ⟨a, rest, hcons⟩ := List.exists_cons_of_ne_nil h
    rw [hcons]
    unfold calculate_combined_sentiment
    dsimp only
    simp only [List.map_cons]
    rw [if_neg (intercalate_cons_ne_empty _ _ (process_article_raw_text_ne lex xt a))]
    simp
  · intro h
    simp [analyze_stock_news_sentiment, h]

/-- C1 witness: the two-headline fixture — a non-empty headline list with
all extractions failing still yields a present combined sentiment over the
sentinel corpus. -/
theorem C1_combined_corpus_witness :
    get_stock_news newsTwo "T" 5 ≠ [] ∧
    (analyze_stock_news_sentiment lexZero extractEmpty newsTwo "T" 5).2.2.2.2 =
      calculate_combined_sentiment lexZero
        (((get_stock_news newsTwo "T" 5).map
          (process_article lexZero extractEmpty)).map ArticleData.raw_text) ∧
    (analyze_stock_news_sentiment lexZero extractEmpty newsTwo "T" 5).2.2.2.2 ≠
      none :=
  ⟨by decide,
   ((C1_combined_corpus lexZero extractEmpty newsTwo "T" 5).1 (by decide)).2.1,
   ((C1_combined_corpus lexZero extractEmpty newsTwo "T" 5).1 (by decide)).2.2⟩

/-- C9 witness: the two-headline fixture. -/
theorem C9_averages_witness :
    get_stock_news newsTwo "T" 5 ≠ [] ∧
    (analyze_stock_news_sentiment lexZero extractEmpty newsTwo "T" 5).1 =
      (((get_stock_news newsTwo "T" 5).map
        (process_article lexZero extractEmpty)).map
        ArticleData.full_text_polarity).sum /
        ((get_stock_news newsTwo "T" 5).length : ℚ) ∧
    (analyze_stock_news_sentiment lexZero extractEmpty newsTwo "T" 5).2.2.1 =
      (analyze_sentiment
        (fun _ => ((analyze_stock_news_sentiment lexZero extractEmpty
          newsTwo "T" 5).1, 0)) "").2.2.1 :=
  ⟨by decide,
   (C9_averages lexZero extractEmpty newsTwo "T" 5 (by decide)).1,
   (C9_averages lexZero extractEmpty newsTwo "T" 5 (by decide)).2.2⟩

/-- C2: a first call on a non-empty ticker that is not already cached
queries the news source exactly once and sets the performed flag; a second
call with the same ticker performs no fetch, leaves the session state
unchanged, and returns exactly the stored result — one news-source
invocation in total. -/
theorem C2_cache_single_fetch (lex : String → ℚ × ℚ) (xt : String → String)
    (ns : String → Nat → Except String (List Article))
    (s : SessionState) (ticker : String)
    (ht : ticker ≠ "")
    (hmiss : ¬(s.ticker = ticker ∧ s.analysis_performed)) :
    (perform_stock_news_analysis lex xt ns s ticker).2.2 = 1 ∧
    ((perform_stock_news_analysis lex xt ns s ticker).2.1).analysis_performed =
      true ∧
    (perform_stock_news_analysis lex xt ns
      (perform_stock_news_analysis lex xt ns s ticker).2.1 ticker).2.2 = 0 ∧
    (perform_stock_news_analysis lex xt ns
      (perform_stock_news_analysis lex xt ns s ticker).2.1 ticker).2.1 =
      (perform_stock_news_analysis lex xt ns s ticker).2.1 ∧
    (perform_stock_news_analysis lex xt ns
      (perform_stock_news_analysis lex xt ns s ticker).2.1 ticker).1 =
      some (((perform_stock_news_analysis lex xt ns s ticker).2.1).avg_polarity,
        ((perform_stock_news_analysis lex xt ns s ticker).2.1).avg_subjectivity,
        ((perform_stock_news_analysis lex xt ns s ticker).2.1).overall_sentiment,
        ((perform_stock_news_analysis lex xt ns s ticker).2.1).news_df,
        ((perform_stock_news_analysis lex xt ns s ticker).2.1).combined_sentiment) ∧
    (perform_stock_news_analysis lex xt ns s ticker).2.2 +
      (perform_stock_news_analysis lex xt ns
        (perform_stock_news_analysis lex xt ns s ticker).2.1 ticker).2.2 = 1 := by
  have h1 : perform_stock_news_analysis lex xt ns s ticker =
      ((if (analyze_stock_news_sentiment lex xt ns ticker
          (s.num_articles.getD 3)).2.2.2.1 = [] then none
        else some (analyze_stock_news_sentiment lex xt ns ticker
          (s.num_articles.getD 3))),
       { ticker := ticker,
         avg_polarity := (analyze_stock_news_sentiment lex xt ns ticker
           (s.num_articles.getD 3)).1,
         avg_subjectivity := (analyze_stock_news_sentiment lex xt ns ticker
           (s.num_articles.getD 3)).2.1,
         overall_sentiment := (analyze_stock_news_sentiment lex xt ns ticker
           (s.num_articles.getD 3)).2.2.1,
         news_df := (analyze_stock_news_sentiment lex xt ns ticker
           (s.num_articles.getD 3)).2.2.2.1,
         combined_sentiment := (analyze_stock_news_sentiment lex xt ns ticker
           (s.num_articles.getD 3)).2.2.2.2,
         analysis_performed := true,
         num_articles := s.num_articles }, 1) := by
    unfold perform_stock_news_analysis
    rw [if_neg ht, if_neg hmiss]
    dsimp only
    split_ifs <;> rfl
  have h2 : ∀ s' : SessionState, s'.ticker = ticker → s'.analysis_performed = true →
      perform_stock_news_analysis lex xt ns s' ticker =
        (some (s'.avg_polarity, s'.avg_subjectivity, s'.overall_sentiment,
          s'.news_df, s'.combined_sentiment), s', 0) := by
    intro s' htk hperf
    unfold perform_stock_news_analysis
    rw [if_neg ht, if_pos ⟨htk, hperf⟩]
  rw [h1]
  dsimp only
  rw [h2 _ rfl rfl]
  simp

/-- C2 witness: a fresh session and the ticker "AAPL". -/
theorem C2_cache_single_fetch_witness :
    ("AAPL" : String) ≠ "" ∧
    ¬(freshSession.ticker = "AAPL" ∧ freshSession.analysis_performed) ∧
    (perform_stock_news_analysis lexZero extractEmpty newsTwo
      freshSession "AAPL").2.2 = 1 ∧
    (perform_stock_news_analysis lexZero extractEmpty newsTwo
      (perform_stock_news_analysis lexZero extractEmpty newsTwo
        freshSession "AAPL").2.1 "AAPL").2.2 = 0 :=
  ⟨by decide, by decide,
   (C2_cache_single_fetch lexZero extractEmpty newsTwo freshSession "AAPL"
     (by decide) (by decide)).1,
   (C2_cache_single_fetch lexZero extractEmpty newsTwo freshSession "AAPL"
     (by decide) (by decide)).2.2.1⟩

/-- C10: `perform_stock_news_analysis` returns `none` for an empty ticker
(leaving state untouched) and for a fresh analysis that finds no articles —
but the latter stores the sentinel values and sets the performed flag
BEFORE returning `none`, so a subsequent call with the same ticker takes
the cache-hit path and returns the stored empty-result tuple
`(0, 0, "Neutral", [], none)` instead of `none`. -/
theorem C10_none_then_cached (lex : String → ℚ × ℚ) (xt : String → String)
    (ns : String → Nat → Except String (List Article))
    (s : SessionState) (ticker : String)
    (ht : ticker ≠ "")
    (hmiss : ¬(s.ticker = ticker ∧ s.analysis_performed))
    (hempty : get_stock_news ns ticker (s.num_articles.getD 3) = []) :
    perform_stock_news_analysis lex xt ns s "" = (none, s, 0) ∧
    perform_stock_news_analysis lex xt ns s ticker =
      (none,
       { ticker := ticker, analysis_performed := true, avg_polarity := 0,
         avg_subjectivity := 0, overall_sentiment := "Neutral", news_df := [],
         combined_sentiment := none, num_articles := s.num_articles }, 1) ∧
    perform_stock_news_analysis lex xt ns
      (perform_stock_news_analysis lex xt ns s ticker).2.1 ticker =
      (some (0, 0, "Neutral", [], none),
       (perform_stock_news_analysis lex xt ns s ticker).2.1, 0) := by
  have hanalysis : analyze_stock_news_sentiment lex xt ns ticker
      (s.num_articles.getD 3) = (0, 0, "Neutral", [], none) := by
    simp [analyze_stock_news_sentiment, hempty]
  have hfirst : perform_stock_news_analysis lex xt ns s ticker =
      (none,
       { ticker := ticker, analysis_performed := true, avg_polarity := 0,
         avg_subjectivity := 0, overall_sentiment := "Neutral", news_df := [],
         combined_sentiment := none, num_articles := s.num_articles }, 1) := by
    unfold perform_stock_news_analysis
    rw [if_neg ht, if_neg hmiss]
    dsimp only
    rw [hanalysis]
    simp
  refine ⟨?_, hfirst, ?_⟩
  · unfold perform_stock_news_analysis
    rw [if_pos rfl]
  · rw [hfirst]
    dsimp only
    unfold perform_stock_news_analysis
    rw [if_neg ht, if_pos ⟨rfl, rfl⟩]

/-- C10 witness: a fresh session with a news source that finds nothing for
"AAPL". -/
theorem C10_none_then_cached_witness :
    ("AAPL" : String) ≠ "" ∧
    ¬(freshSession.ticker = "AAPL" ∧ freshSession.analysis_performed) ∧
    get_stock_news newsNone "AAPL" (freshSession.num_articles.getD 3) = [] ∧
    (perform_stock_news_analysis lexZero extractEmpty newsNone
      freshSession "AAPL").1 = none ∧
    perform_stock_news_analysis lexZero extractEmpty newsNone
      (perform_stock_news_analysis lexZero extractEmpty newsNone
        freshSession "AAPL").2.1 "AAPL" =
      (some (0, 0, "Neutral", [], none),
       (perform_stock_news_analysis lexZero extractEmpty newsNone
         freshSession "AAPL").2.1, 0) :=
  ⟨by decide, by decide, by decide,
   by rw [(C10_none_then_cached lexZero extractEmpty newsNone freshSession
     "AAPL" (by decide) (by decide) (by decide)).2.1],
   (C10_none_then_cached lexZero extractEmpty newsNone freshSession
     "AAPL" (by decide) (by decide) (by decide)).2.2⟩
